import Mathlib

/-!
# The HTTP service module `frontend/src/services/httpService.js`

A shallow embedding of the two exported functions `searchAnswers` and
`testConnection`, and the properties of their request, result, error and
logging behaviour.

The module runs on the JavaScript platform: `fetch`, `JSON.stringify`,
`response.json()`, `console.error`, property access, truthiness and `Error`
are platform operations.  They are modelled below for JSON-like values; the
network is an arbitrary function from the request to the settled outcome of
the `fetch` promise.
-/

namespace HttpService

/-! ## JavaScript values -/

/-- JSON-like JavaScript values.  `undefined` is the value of a missing
property and of an omitted argument.  Numbers are restricted to integers: the
module only tests a number for truthiness or prints it.  An object is the
list of its own properties in insertion order, each key once. -/
inductive JSValue where
  | undefined
  | null
  | bool (b : Bool)
  | num (n : Int)
  | str (s : String)
  | arr (items : List JSValue)
  | obj (fields : List (String × JSValue))

/-- What a JavaScript `throw` (or a rejected promise) carries: an `Error`
object, given by its `name` and `message`, or any other value. -/
inductive Thrown where
  | error (name : String) (message : String)
  | value (v : JSValue)

/-- The expression `new Error(message)`. -/
def newError (message : String) : Thrown :=
  Thrown.error "Error" message

/-- The `TypeError` of a property read on `undefined` or `null`; the wording
of its message differs between engines. -/
def nullishRead (key : String) : Thrown :=
  Thrown.error "TypeError" ("Cannot read properties of undefined or null (reading " ++ key ++ ")")

/-- JavaScript truthiness (`ToBoolean`): `undefined`, `null`, `false`, `0`
and the empty string are falsy, everything else (every array and object
included) is truthy. -/
def JSValue.truthy : JSValue → Bool
  | .undefined => false
  | .null => false
  | .bool b => b
  | .num n => n != 0
  | .str s => s != ""
  | .arr _ => true
  | .obj _ => true

/-- The expression `a || b`. -/
def JSValue.or (a b : JSValue) : JSValue :=
  if a.truthy then a else b

/-- Own-property lookup in a key/value list. -/
def lookupField (key : String) : List (String × JSValue) → Option JSValue
  | [] => none
  | (k, v) :: rest => if k = key then some v else lookupField key rest

/-- The property read `value.key` for a key that no built-in prototype
defines (`success`, `message`, `results`): a `TypeError` on `undefined` and
`null`, the own property of an object or `undefined`, and `undefined` on
every other value. -/
def JSValue.getProp (value : JSValue) (key : String) : Except Thrown JSValue :=
  match value with
  | .undefined => .error (nullishRead key)
  | .null => .error (nullishRead key)
  | .obj fields => .ok ((lookupField key fields).getD .undefined)
  | _ => .ok .undefined

mutual
/-- The string conversion `String(value)` (`ToString`), as the `Error`
constructor applies it to its argument.  An array is printed as
`Array.prototype.join` does: the elements separated by commas. -/
def JSValue.toStr : JSValue → String
  | .undefined => "undefined"
  | .null => "null"
  | .bool b => if b then "true" else "false"
  | .num n => toString n
  | .str s => s
  | .arr items => ",".intercalate (joinItems items)
  | .obj _ => "[object Object]"
/-- The printed elements of `Array.prototype.join`: `undefined` and `null`
are printed as the empty string. -/
def joinItems : List JSValue → List String
  | [] => []
  | .undefined :: rest => "" :: joinItems rest
  | .null :: rest => "" :: joinItems rest
  | x :: rest => JSValue.toStr x :: joinItems rest
end

/-! ## `JSON.stringify` -/

/-- A lowercase hexadecimal digit. -/
def hexDigit (n : Nat) : Char :=
  if n < 10 then Char.ofNat (48 + n) else Char.ofNat (87 + n)

/-- The escape of one character inside a JSON string (`QuoteJSONString`):
the quote, the backslash and the control characters are escaped, every other
character stands for itself. -/
def escapeChar (c : Char) : String :=
  if c = Char.ofNat 34 then "\\\""
  else if c = Char.ofNat 92 then "\\\\"
  else if c = Char.ofNat 8 then "\\b"
  else if c = Char.ofNat 12 then "\\f"
  else if c = Char.ofNat 10 then "\\n"
  else if c = Char.ofNat 13 then "\\r"
  else if c = Char.ofNat 9 then "\\t"
  else if c.toNat < 32 then
    "\\u00" ++ String.mk [hexDigit (c.toNat / 16), hexDigit (c.toNat % 16)]
  else String.mk [c]

/-- A string as a JSON string literal. -/
def quote (s : String) : String :=
  "\"" ++ String.join (s.toList.map escapeChar) ++ "\""

mutual
/-- The call `JSON.stringify(value)` without replacer or indentation;
`none` is the result `undefined`.  An `undefined` array element is printed
as `null`, an object property whose value is `undefined` is left out. -/
def JSON.stringify : JSValue → Option String
  | .undefined => none
  | .null => some "null"
  | .bool b => some (if b then "true" else "false")
  | .num n => some (toString n)
  | .str s => some (quote s)
  | .arr items => some ("[" ++ ",".intercalate (stringifyItems items) ++ "]")
  | .obj fields => some ("\x7b" ++ ",".intercalate (stringifyFields fields) ++ "\x7d")
/-- The serialized elements of an array. -/
def stringifyItems : List JSValue → List String
  | [] => []
  | x :: rest => (JSON.stringify x).getD "null" :: stringifyItems rest
/-- The serialized `key:value` members of an object. -/
def stringifyFields : List (String × JSValue) → List String
  | [] => []
  | (k, v) :: rest =>
    match JSON.stringify v with
    | none => stringifyFields rest
    | some s => (quote k ++ ":" ++ s) :: stringifyFields rest
end

/-! ## Requests, responses and the observable world -/

/-- The two arguments of a `fetch` call: the URL and the `init` object. -/
structure Request where
  url : String
  method : String
  headers : List (String × String)
  body : Option String

/-- A settled `fetch` response: the HTTP status line and the outcome that
`response.json()` has on it, the decoded body or the error of a body that
does not decode. -/
structure Response where
  status : Nat
  statusText : String
  body : Except Thrown JSValue

/-- The getter `response.ok`: the status is in the range 200 to 299. -/
def Response.ok (r : Response) : Bool :=
  decide (200 ≤ r.status ∧ r.status ≤ 299)

/-- The network: the settled outcome of the promise `fetch` returns for a
request, a response or a rejection. -/
abbrev Network := Request → Except Thrown Response

/-- What a caller can observe besides the result: the requests issued, the
number of bodies decoded and the lines written by `console.error`. -/
structure World where
  requests : List Request
  decodes : Nat
  console : List (String × Thrown)

/-- An asynchronous JavaScript computation: from the world before to the
settled result (fulfilled with a value or rejected with what was thrown) and
the world after. -/
def JS (α : Type) : Type :=
  World → Except Thrown α × World

/-- A computation that returns `a`. -/
def JS.pure {α : Type} (a : α) : JS α :=
  fun w => (.ok a, w)

/-- Sequencing: a throw of the first computation skips the second. -/
def JS.bind {α β : Type} (m : JS α) (f : α → JS β) : JS β :=
  fun w =>
    match m w with
    | (.ok a, w1) => f a w1
    | (.error e, w1) => (.error e, w1)

/-- The statement `throw e`. -/
def JS.throw {α : Type} (e : Thrown) : JS α :=
  fun w => (.error e, w)

/-- The statement `try body catch (error) handler`. -/
def JS.tryCatch {α : Type} (body : JS α) (handler : Thrown → JS α) : JS α :=
  fun w =>
    match body w with
    | (.ok a, w1) => (.ok a, w1)
    | (.error e, w1) => handler e w1

instance : Monad JS where
  pure := JS.pure
  bind := JS.bind

instance : MonadExcept Thrown JS where
  throw := JS.throw
  tryCatch := JS.tryCatch

/-- The call `fetch(url, init)` followed by `await`: the request is
recorded and the network settles it. -/
def fetch (net : Network) (req : Request) : JS Response :=
  fun w => (net req, { w with requests := w.requests ++ [req] })

/-- The call `response.json()` followed by `await`. -/
def Response.json (r : Response) : JS JSValue :=
  fun w => (r.body, { w with decodes := w.decodes + 1 })

/-- The call `console.error(label, error)`. -/
def consoleError (label : String) (error : Thrown) : JS Unit :=
  fun w => (.ok (), { w with console := w.console ++ [(label, error)] })

/-- A synchronous expression that may throw, inside a computation. -/
def JS.ofExcept {α : Type} (x : Except Thrown α) : JS α :=
  fun w => (x, w)

/-- A parameter with a default value, `(param = dflt)`: the default stands in
for an argument that is omitted or `undefined`, every other argument is kept. -/
def defaultArg (arg dflt : JSValue) : JSValue :=
  match arg with
  | .undefined => dflt
  | given => given

/-! ## The module -/

/-- The constant `API_BASE_URL`. -/
def API_BASE_URL : String := "http://localhost:8080"

/-- The function `searchAnswers(query, filters = {})`.  An omitted `filters`
is the argument `undefined`, which the default value replaces. -/
def searchAnswers (net : Network) (query : JSValue) (filters : JSValue) : JS JSValue :=
  let filters := defaultArg filters (.obj [])
  try
    let response ← fetch net
      { url := API_BASE_URL ++ "/api/search"
        method := "POST"
        headers := [("Content-Type", "application/json")]
        body := JSON.stringify (.obj [("query", query), ("filters", filters)]) }
    if !response.ok then
      throw (newError ("HTTP请求失败: " ++ toString response.status ++ " " ++ response.statusText))
    let data ← response.json
    let success ← JS.ofExcept (data.getProp "success")
    if !success.truthy then
      let message ← JS.ofExcept (data.getProp "message")
      throw (newError (message.or (.str "搜索失败")).toStr)
    let results ← JS.ofExcept (data.getProp "results")
    return results.or (.arr [])
  catch error =>
    consoleError "搜索答案失败:" error
    throw error

/-- The function `testConnection()`. -/
def testConnection (net : Network) : JS Bool :=
  try
    let response ← fetch net
      { url := API_BASE_URL ++ "/api/search"
        method := "POST"
        headers := [("Content-Type", "application/json")]
        body := JSON.stringify (.obj [("query", .str "test"), ("filters", .obj [])]) }
    return response.ok
  catch error =>
    consoleError "连接测试失败:" error
    return false

/-- The world before any call. -/
def World.init : World :=
  { requests := [], decodes := 0, console := [] }

/-! ## Expected requests and sample networks -/

/-- The request that `searchAnswers` is expected to send for a query and a
filter value: a POST of the JSON text of the two fields to the search
endpoint. -/
def searchRequest (query filters : JSValue) : Request :=
  { url := "http://localhost:8080/api/search"
    method := "POST"
    headers := [("Content-Type", "application/json")]
    body := JSON.stringify (.obj [("query", query), ("filters", filters)]) }

/-- A network that settles every request with the response `r`. -/
def respond (r : Response) : Network :=
  fun _ => .ok r

/-- A network on which every request is rejected with `e`. -/
def unreachable (e : Thrown) : Network :=
  fun _ => .error e

/-- A 404 response whose body nevertheless reports success with a result. -/
def notFoundResponse : Response :=
  { status := 404
    statusText := "Not Found"
    body := .ok (.obj [("success", .bool true), ("results", .arr [.obj [("id", .num 1)]])]) }

/-- A 200 response whose body is the given decoded value. -/
def okResponse (data : JSValue) : Response :=
  { status := 200, statusText := "OK", body := .ok data }

/-- A response with the given status whose body is not JSON: decoding it
throws a `SyntaxError`. -/
def undecodableResponse (status : Nat) (statusText : String) : Response :=
  { status := status
    statusText := statusText
    body := .error (Thrown.error "SyntaxError" "Unexpected token < in JSON at position 0") }

/-! ## The paths through `searchAnswers` -/

theorem baseUrl_search : API_BASE_URL ++ "/api/search" = "http://localhost:8080/api/search" := by
  decide

/-- The transport call is rejected: the rejection is logged and rethrown. -/
theorem searchAnswers_rejected (net : Network) (query filters : JSValue) (w : World) (e : Thrown)
    (h : net (searchRequest query (defaultArg filters (.obj []))) = .error e) :
    searchAnswers net query filters w =
      (.error e,
        { requests := w.requests ++ [searchRequest query (defaultArg filters (.obj []))]
          decodes := w.decodes
          console := w.console ++ [("搜索答案失败:", e)] }) := by
  simp only [searchRequest] at h
  simp [searchAnswers, bind, JS.bind, throw, throwThe, MonadExcept.throw, tryCatch, tryCatchThe,
    MonadExcept.tryCatch, JS.tryCatch, JS.throw, fetch, consoleError, baseUrl_search, h,
    searchRequest]

/-- The response has a non-success status: the body is not decoded. -/
theorem searchAnswers_not_ok (net : Network) (query filters : JSValue) (w : World) (r : Response)
    (h : net (searchRequest query (defaultArg filters (.obj []))) = .ok r) (hok : r.ok = false) :
    searchAnswers net query filters w =
      (.error (newError ("HTTP请求失败: " ++ toString r.status ++ " " ++ r.statusText)),
        { requests := w.requests ++ [searchRequest query (defaultArg filters (.obj []))]
          decodes := w.decodes
          console := w.console ++
            [("搜索答案失败:",
              newError ("HTTP请求失败: " ++ toString r.status ++ " " ++ r.statusText))] }) := by
  simp only [searchRequest] at h
  simp [searchAnswers, bind, JS.bind, throw, throwThe, MonadExcept.throw, tryCatch, tryCatchThe,
    MonadExcept.tryCatch, JS.tryCatch, JS.throw, fetch, consoleError, baseUrl_search, h, hok,
    searchRequest]

/-- The body does not decode: the decoding error is logged and rethrown. -/
theorem searchAnswers_undecodable (net : Network) (query filters : JSValue) (w : World)
    (r : Response) (e : Thrown)
    (h : net (searchRequest query (defaultArg filters (.obj []))) = .ok r) (hok : r.ok = true)
    (hb : r.body = .error e) :
    searchAnswers net query filters w =
      (.error e,
        { requests := w.requests ++ [searchRequest query (defaultArg filters (.obj []))]
          decodes := w.decodes + 1
          console := w.console ++ [("搜索答案失败:", e)] }) := by
  simp only [searchRequest] at h
  simp [searchAnswers, bind, JS.bind, pure, JS.pure, throw, throwThe, MonadExcept.throw, tryCatch,
    tryCatchThe, MonadExcept.tryCatch, JS.tryCatch, JS.throw, fetch, Response.json, consoleError,
    baseUrl_search, h, hok, hb, searchRequest]

/-- The decoded body is `undefined` or `null`: reading `success` throws. -/
theorem searchAnswers_unreadable (net : Network) (query filters : JSValue) (w : World)
    (r : Response) (data : JSValue) (e : Thrown)
    (h : net (searchRequest query (defaultArg filters (.obj []))) = .ok r) (hok : r.ok = true)
    (hb : r.body = .ok data) (hs : data.getProp "success" = .error e) :
    searchAnswers net query filters w =
      (.error e,
        { requests := w.requests ++ [searchRequest query (defaultArg filters (.obj []))]
          decodes := w.decodes + 1
          console := w.console ++ [("搜索答案失败:", e)] }) := by
  simp only [searchRequest] at h
  simp [searchAnswers, bind, JS.bind, pure, JS.pure, throw, throwThe, MonadExcept.throw, tryCatch,
    tryCatchThe, MonadExcept.tryCatch, JS.tryCatch, JS.throw, fetch, Response.json, consoleError,
    JS.ofExcept, baseUrl_search, h, hok, hb, hs, searchRequest]

/-- The decoded body has a falsy `success`: an `Error` with the message of
the body, or the default message, is logged and thrown. -/
theorem searchAnswers_refused (net : Network) (query filters : JSValue) (w : World)
    (r : Response) (data success message : JSValue)
    (h : net (searchRequest query (defaultArg filters (.obj []))) = .ok r) (hok : r.ok = true)
    (hb : r.body = .ok data) (hs : data.getProp "success" = .ok success)
    (ht : success.truthy = false) (hm : data.getProp "message" = .ok message) :
    searchAnswers net query filters w =
      (.error (newError (message.or (.str "搜索失败")).toStr),
        { requests := w.requests ++ [searchRequest query (defaultArg filters (.obj []))]
          decodes := w.decodes + 1
          console := w.console ++
            [("搜索答案失败:", newError (message.or (.str "搜索失败")).toStr)] }) := by
  simp only [searchRequest] at h
  simp [searchAnswers, bind, JS.bind, pure, JS.pure, throw, throwThe, MonadExcept.throw, tryCatch,
    tryCatchThe, MonadExcept.tryCatch, JS.tryCatch, JS.throw, fetch, Response.json, consoleError,
    JS.ofExcept, baseUrl_search, h, hok, hb, hs, ht, hm, searchRequest]

/-- The decoded body has a truthy `success`: `results`, or an empty array,
is returned and nothing is logged. -/
theorem searchAnswers_accepted (net : Network) (query filters : JSValue) (w : World)
    (r : Response) (data success results : JSValue)
    (h : net (searchRequest query (defaultArg filters (.obj []))) = .ok r) (hok : r.ok = true)
    (hb : r.body = .ok data) (hs : data.getProp "success" = .ok success)
    (ht : success.truthy = true) (hr : data.getProp "results" = .ok results) :
    searchAnswers net query filters w =
      (.ok (results.or (.arr [])),
        { requests := w.requests ++ [searchRequest query (defaultArg filters (.obj []))]
          decodes := w.decodes + 1
          console := w.console }) := by
  simp only [searchRequest] at h
  simp [searchAnswers, bind, JS.bind, pure, JS.pure, throw, throwThe, MonadExcept.throw, tryCatch,
    tryCatchThe, MonadExcept.tryCatch, JS.tryCatch, JS.throw, fetch, Response.json, consoleError,
    JS.ofExcept, baseUrl_search, h, hok, hb, hs, ht, hr, searchRequest]

/-- A property read that succeeds for one key succeeds for every key. -/
theorem getProp_ok_of_ok (data : JSValue) (k1 k2 : String) (v : JSValue)
    (h : data.getProp k1 = .ok v) : ∃ v2, data.getProp k2 = .ok v2 := by
  cases data <;> simp [JSValue.getProp] at h ⊢

/-- The six paths cover every run of `searchAnswers`: the outcome is one of
them, with the request sent, the decoding count and the console as the path
lemmas give them. -/
theorem searchAnswers_cases (net : Network) (query filters : JSValue) (w : World) :
    ∃ (res : Except Thrown JSValue) (d : Nat) (log : List (String × Thrown)),
      searchAnswers net query filters w =
        (res,
          { requests := w.requests ++ [searchRequest query (defaultArg filters (.obj []))]
            decodes := w.decodes + d
            console := w.console ++ log })
      ∧ ((∃ v, res = .ok v ∧ log = []) ∨ (∃ e, res = .error e ∧ log = [("搜索答案失败:", e)])) := by
  cases h : net (searchRequest query (defaultArg filters (.obj []))) with
  | error e =>
    exact ⟨_, 0, _, searchAnswers_rejected net query filters w e h, Or.inr ⟨e, rfl, rfl⟩⟩
  | ok r =>
    cases hok : r.ok with
    | false =>
      exact ⟨_, 0, _, searchAnswers_not_ok net query filters w r h hok, Or.inr ⟨_, rfl, rfl⟩⟩
    | true =>
      cases hb : r.body with
      | error e =>
        exact ⟨_, 1, _, searchAnswers_undecodable net query filters w r e h hok hb,
          Or.inr ⟨e, rfl, rfl⟩⟩
      | ok data =>
        cases hs : data.getProp "success" with
        | error e =>
          exact ⟨_, 1, _, searchAnswers_unreadable net query filters w r data e h hok hb hs,
            Or.inr ⟨e, rfl, rfl⟩⟩
        | ok success =>
          cases ht : success.truthy with
          | false =>
            obtain ⟨message, hm⟩ := getProp_ok_of_ok data "success" "message" success hs
            exact ⟨_, 1, _,
              searchAnswers_refused net query filters w r data success message h hok hb hs ht hm,
              Or.inr ⟨_, rfl, rfl⟩⟩
          | true =>
            obtain ⟨results, hr⟩ := getProp_ok_of_ok data "success" "results" success hs
            refine ⟨.ok (results.or (.arr [])), 1, [], ?_, Or.inl ⟨_, rfl, rfl⟩⟩
            rw [searchAnswers_accepted net query filters w r data success results h hok hb hs ht hr]
            simp

/-! ## The paths through `testConnection` -/

/-- The transport call resolves: the probe returns `response.ok`. -/
theorem testConnection_resolved (net : Network) (w : World) (r : Response)
    (h : net (searchRequest (.str "test") (.obj [])) = .ok r) :
    testConnection net w =
      (.ok r.ok,
        { requests := w.requests ++ [searchRequest (.str "test") (.obj [])]
          decodes := w.decodes
          console := w.console }) := by
  simp only [searchRequest] at h
  simp [testConnection, bind, JS.bind, pure, JS.pure, tryCatch, tryCatchThe,
    MonadExcept.tryCatch, JS.tryCatch, fetch, baseUrl_search, h, searchRequest]

/-- The transport call is rejected: the probe logs and returns `false`. -/
theorem testConnection_rejected (net : Network) (w : World) (e : Thrown)
    (h : net (searchRequest (.str "test") (.obj [])) = .error e) :
    testConnection net w =
      (.ok false,
        { requests := w.requests ++ [searchRequest (.str "test") (.obj [])]
          decodes := w.decodes
          console := w.console ++ [("连接测试失败:", e)] }) := by
  simp only [searchRequest] at h
  simp [testConnection, bind, JS.bind, pure, JS.pure, tryCatch, tryCatchThe,
    MonadExcept.tryCatch, JS.tryCatch, fetch, consoleError, baseUrl_search, h, searchRequest]

/-- The JSON text of an object with a `query` and a `filters` member. -/
theorem stringify_query_filters (query : String) (filters : List (String × JSValue)) :
    JSON.stringify (.obj [("query", .str query), ("filters", .obj filters)]) =
      some ("\x7b\"query\":" ++ quote query ++ ",\"filters\":\x7b" ++
        ",".intercalate (stringifyFields filters) ++ "\x7d\x7d") := by
  have pair : ∀ a b : String, ",".intercalate [a, b] = a ++ "," ++ b := fun _ _ => rfl
  have q1 : quote "query" = "\"query\"" := by decide
  have q2 : quote "filters" = "\"filters\"" := by decide
  have e1 : ("\x7b\"query\":" : String) = "\x7b" ++ ("\"query\"" ++ ":") := by decide
  have e2 : (",\"filters\":\x7b" : String) = "," ++ ("\"filters\"" ++ (":" ++ "\x7b")) := by
    decide
  have e3 : ("\x7d\x7d" : String) = "\x7d" ++ "\x7d" := by decide
  simp only [JSON.stringify, stringifyFields, pair, q1, q2]
  rw [e1, e2, e3]
  simp only [String.append_assoc]

/-! ## The request of `searchAnswers` -/

/-- C1: for every query string and every filter mapping, `searchAnswers`
issues exactly one request, whatever the network answers: a POST to
`http://localhost:8080/api/search` with the single header
`Content-Type: application/json` and the JSON text of the object with the
members `query` and `filters`, in that order, as body. -/
theorem searchAnswers_sends_one_post (net : Network) (query : String)
    (filters : List (String × JSValue)) (w : World) :
    (searchAnswers net (.str query) (.obj filters) w).2.requests =
        w.requests ++
          [{ url := "http://localhost:8080/api/search"
             method := "POST"
             headers := [("Content-Type", "application/json")]
             body := JSON.stringify (.obj [("query", .str query), ("filters", .obj filters)]) }]
      ∧ JSON.stringify (.obj [("query", .str query), ("filters", .obj filters)]) =
          some ("\x7b\"query\":" ++ quote query ++ ",\"filters\":\x7b" ++
            ",".intercalate (stringifyFields filters) ++ "\x7d\x7d") := by
  obtain ⟨res, d, log, heq, _⟩ := searchAnswers_cases net (.str query) (.obj filters) w
  refine ⟨?_, stringify_query_filters query filters⟩
  rw [heq]
  rfl

/-- C9: with the filters omitted, `searchAnswers(query)` runs exactly as
`searchAnswers(query, {})`: same result or failure and same effects for the
same network, and the body sent is the JSON text of the given query with an
empty filter mapping. -/
theorem searchAnswers_default_filters (net : Network) (query : JSValue) (w : World) :
    searchAnswers net query .undefined w = searchAnswers net query (.obj []) w
      ∧ (searchAnswers net query .undefined w).2.requests =
          w.requests ++
            [{ url := "http://localhost:8080/api/search"
               method := "POST"
               headers := [("Content-Type", "application/json")]
               body := JSON.stringify (.obj [("query", query), ("filters", .obj [])]) }] := by
  obtain ⟨res, d, log, heq, _⟩ := searchAnswers_cases net query .undefined w
  refine ⟨rfl, ?_⟩
  rw [heq]
  rfl

/-- C10: `testConnection` issues exactly one request, and it is the request
that `searchAnswers` issues for the query `test` and the empty filters: same
URL, method POST, same header and the same JSON body. -/
theorem testConnection_request_eq_search (net net2 : Network) (w : World) :
    (testConnection net w).2.requests =
        (searchAnswers net2 (.str "test") (.obj []) w).2.requests
      ∧ (testConnection net w).2.requests =
          w.requests ++
            [{ url := "http://localhost:8080/api/search"
               method := "POST"
               headers := [("Content-Type", "application/json")]
               body := some "\x7b\"query\":\"test\",\"filters\":\x7b\x7d\x7d" }] := by
  obtain ⟨res, d, log, heq, _⟩ := searchAnswers_cases net2 (.str "test") (.obj []) w
  have hprobe : (testConnection net w).2.requests =
      w.requests ++ [searchRequest (.str "test") (.obj [])] := by
    cases h : net (searchRequest (.str "test") (.obj [])) with
    | ok r => rw [testConnection_resolved net w r h]
    | error e => rw [testConnection_rejected net w e h]
  refine ⟨?_, ?_⟩
  · rw [hprobe, heq]
    rfl
  · rw [hprobe]
    rfl

/-! ## Failures of `searchAnswers` -/

/-- C2: when the response has a non-success status (`response.ok` false),
`searchAnswers` fails with an `Error` whose message is `HTTP请求失败: `, the
decimal status, a space and the status text; this holds for every body of
the response, and the body is not decoded. -/
theorem searchAnswers_transport_failure (net : Network) (query filters : JSValue) (w : World)
    (r : Response)
    (h : net (searchRequest query (defaultArg filters (.obj []))) = .ok r)
    (hok : r.ok = false) :
    (searchAnswers net query filters w).1 =
        .error (newError ("HTTP请求失败: " ++ toString r.status ++ " " ++ r.statusText))
      ∧ (searchAnswers net query filters w).2.decodes = w.decodes := by
  rw [searchAnswers_not_ok net query filters w r h hok]
  exact ⟨rfl, rfl⟩

/-- The theorem `searchAnswers_transport_failure` at a 404 response whose
body reports success with results. -/
theorem searchAnswers_transport_failure_witness :
    notFoundResponse.ok = false
      ∧ (searchAnswers (respond notFoundResponse) (.str "cats") (.obj []) World.init).1 =
          .error (Thrown.error "Error" "HTTP请求失败: 404 Not Found")
      ∧ (searchAnswers (respond notFoundResponse) (.str "cats") (.obj []) World.init).2.decodes
          = 0 :=
  ⟨by decide,
    searchAnswers_transport_failure (respond notFoundResponse) (.str "cats") (.obj []) World.init
      notFoundResponse rfl (by decide)⟩

/-- C3 as stated fails: a body with `success: false` and the empty string as
`message` makes `searchAnswers` fail with the default message, not with the
message of the body. -/
theorem searchAnswers_empty_message_default :
    (searchAnswers
        (respond (okResponse (.obj [("success", .bool false), ("message", .str "")])))
        (.str "cats") (.obj []) World.init).1 = .error (Thrown.error "Error" "搜索失败")
      ∧ (searchAnswers
          (respond (okResponse (.obj [("success", .bool false), ("message", .str "")])))
          (.str "cats") (.obj []) World.init).1 ≠ .error (Thrown.error "Error" "") := by
  have hrun :
      (searchAnswers
        (respond (okResponse (.obj [("success", .bool false), ("message", .str "")])))
        (.str "cats") (.obj []) World.init).1 = .error (Thrown.error "Error" "搜索失败") := by
    rw [searchAnswers_refused
      (respond (okResponse (.obj [("success", .bool false), ("message", .str "")])))
      (.str "cats") (.obj []) World.init
      (okResponse (.obj [("success", .bool false), ("message", .str "")]))
      (.obj [("success", .bool false), ("message", .str "")]) (.bool false) (.str "")
      rfl (by decide) rfl rfl rfl rfl]
    rfl
  refine ⟨hrun, ?_⟩
  rw [hrun]
  intro hne
  injection hne with hne
  injection hne with _ hmsg
  exact absurd hmsg (by decide)

/-- C3, amended: when the response has a success status and the decoded body
has `success: false`, `searchAnswers` fails and returns no value; the error
message is the `message` of the body when that is a non-empty string, and
the default `搜索失败` when the body has no `message` or an empty one. -/
theorem searchAnswers_application_failure (net : Network) (query filters : JSValue) (w : World)
    (r : Response) (fields : List (String × JSValue))
    (h : net (searchRequest query (defaultArg filters (.obj []))) = .ok r)
    (hok : r.ok = true) (hb : r.body = .ok (.obj fields))
    (hs : lookupField "success" fields = some (.bool false)) :
    (∀ m : String, lookupField "message" fields = some (.str m) → m ≠ "" →
        (searchAnswers net query filters w).1 = .error (newError m))
      ∧ (lookupField "message" fields = none ∨ lookupField "message" fields = some (.str "") →
          (searchAnswers net query filters w).1 = .error (newError "搜索失败"))
      ∧ ∀ v, (searchAnswers net query filters w).1 ≠ .ok v := by
  have hsucc : (JSValue.obj fields).getProp "success" = .ok (.bool false) := by
    simp [JSValue.getProp, hs]
  have hrun := searchAnswers_refused net query filters w r (.obj fields) (.bool false)
    ((lookupField "message" fields).getD .undefined) h hok hb hsucc rfl rfl
  rw [hrun]
  refine ⟨?_, ?_, ?_⟩
  · intro m hm hne
    simp [hm, JSValue.or, JSValue.truthy, hne, JSValue.toStr]
  · intro hm
    rcases hm with hm | hm <;> simp [hm, JSValue.or, JSValue.truthy, JSValue.toStr]
  · intro v hv
    simp at hv

/-- The theorem `searchAnswers_application_failure` at a body that refuses
with the message `boom` and carries results all the same. -/
theorem searchAnswers_application_failure_witness :
    (searchAnswers
        (respond (okResponse
          (.obj [("success", .bool false), ("message", .str "boom"), ("results", .arr [.null])])))
        (.str "cats") (.obj []) World.init).1 = .error (Thrown.error "Error" "boom") :=
  (searchAnswers_application_failure
    (respond (okResponse
      (.obj [("success", .bool false), ("message", .str "boom"), ("results", .arr [.null])])))
    (.str "cats") (.obj []) World.init _ _ rfl (by decide) rfl rfl).1 "boom" rfl (by decide)

/-! ## Results of `searchAnswers` -/

/-- C4: when the response has a success status and the decoded body has
`success: true` and no `results`, `searchAnswers` returns an empty array; it
does not fail and logs nothing. -/
theorem searchAnswers_no_results (net : Network) (query filters : JSValue) (w : World)
    (r : Response) (fields : List (String × JSValue))
    (h : net (searchRequest query (defaultArg filters (.obj []))) = .ok r)
    (hok : r.ok = true) (hb : r.body = .ok (.obj fields))
    (hs : lookupField "success" fields = some (.bool true))
    (hr : lookupField "results" fields = none) :
    (searchAnswers net query filters w).1 = .ok (.arr [])
      ∧ (searchAnswers net query filters w).2.console = w.console := by
  have hsucc : (JSValue.obj fields).getProp "success" = .ok (.bool true) := by
    simp [JSValue.getProp, hs]
  have hres : (JSValue.obj fields).getProp "results" = .ok .undefined := by
    simp [JSValue.getProp, hr]
  rw [searchAnswers_accepted net query filters w r (.obj fields) (.bool true) .undefined
    h hok hb hsucc rfl hres]
  exact ⟨rfl, rfl⟩

/-- The theorem `searchAnswers_no_results` at the body with `success: true`
alone. -/
theorem searchAnswers_no_results_witness :
    (searchAnswers (respond (okResponse (.obj [("success", .bool true)])))
        (.str "cats") (.obj []) World.init).1 = .ok (.arr [])
      ∧ (searchAnswers (respond (okResponse (.obj [("success", .bool true)])))
          (.str "cats") (.obj []) World.init).2.console = [] :=
  searchAnswers_no_results (respond (okResponse (.obj [("success", .bool true)])))
    (.str "cats") (.obj []) World.init _ _ rfl (by decide) rfl rfl rfl

/-- C5: when the response has a success status and the decoded body has
`success: true` and a sequence as `results`, `searchAnswers` returns that
sequence unchanged, for every query and filters. -/
theorem searchAnswers_returns_results (net : Network) (query filters : JSValue) (w : World)
    (r : Response) (fields : List (String × JSValue)) (items : List JSValue)
    (h : net (searchRequest query (defaultArg filters (.obj []))) = .ok r)
    (hok : r.ok = true) (hb : r.body = .ok (.obj fields))
    (hs : lookupField "success" fields = some (.bool true))
    (hr : lookupField "results" fields = some (.arr items)) :
    (searchAnswers net query filters w).1 = .ok (.arr items) := by
  have hsucc : (JSValue.obj fields).getProp "success" = .ok (.bool true) := by
    simp [JSValue.getProp, hs]
  have hres : (JSValue.obj fields).getProp "results" = .ok (.arr items) := by
    simp [JSValue.getProp, hr]
  rw [searchAnswers_accepted net query filters w r (.obj fields) (.bool true) (.arr items)
    h hok hb hsucc rfl hres]
  rfl

/-- The theorem `searchAnswers_returns_results` at the example of the
specification: query `cats`, filters `{}` and a body with `success: true` and
the results `[{"id": 1}]`. -/
theorem searchAnswers_returns_results_witness :
    (searchAnswers
        (respond (okResponse
          (.obj [("success", .bool true), ("results", .arr [.obj [("id", .num 1)]])])))
        (.str "cats") (.obj []) World.init).1 = .ok (.arr [.obj [("id", .num 1)]]) :=
  searchAnswers_returns_results
    (respond (okResponse
      (.obj [("success", .bool true), ("results", .arr [.obj [("id", .num 1)]])])))
    (.str "cats") (.obj []) World.init _ _ _ rfl (by decide) rfl rfl rfl

/-- C8: every failure of `searchAnswers` is logged once and rethrown as it
is.  When the call fails with `e`, the console gains exactly the one line
that carries `e`; when it returns, the console is unchanged.  A rejection of
the transport call and a decoding error are rethrown unchanged, a non-success
status and a falsy `success` fail with the `Error` built for them: no failure
becomes a returned value. -/
theorem searchAnswers_logs_and_rethrows (net : Network) (query filters : JSValue) (w : World) :
    (∀ e, (searchAnswers net query filters w).1 = .error e →
        (searchAnswers net query filters w).2.console = w.console ++ [("搜索答案失败:", e)])
      ∧ (∀ v, (searchAnswers net query filters w).1 = .ok v →
          (searchAnswers net query filters w).2.console = w.console)
      ∧ (∀ e, net (searchRequest query (defaultArg filters (.obj []))) = .error e →
          (searchAnswers net query filters w).1 = .error e)
      ∧ (∀ r, net (searchRequest query (defaultArg filters (.obj []))) = .ok r →
          r.ok = false →
          (searchAnswers net query filters w).1 =
            .error (newError ("HTTP请求失败: " ++ toString r.status ++ " " ++ r.statusText)))
      ∧ (∀ r e, net (searchRequest query (defaultArg filters (.obj []))) = .ok r →
          r.ok = true → r.body = .error e →
          (searchAnswers net query filters w).1 = .error e)
      ∧ (∀ r data success message,
          net (searchRequest query (defaultArg filters (.obj []))) = .ok r →
          r.ok = true → r.body = .ok data → data.getProp "success" = .ok success →
          success.truthy = false → data.getProp "message" = .ok message →
          (searchAnswers net query filters w).1 =
            .error (newError (message.or (.str "搜索失败")).toStr)) := by
  refine ⟨?_, ?_, ?_, ?_, ?_, ?_⟩
  · intro e he
    obtain ⟨res, d, log, heq, hlog⟩ := searchAnswers_cases net query filters w
    rw [heq] at he ⊢
    rcases hlog with ⟨v, hv, _⟩ | ⟨e2, he2, hl⟩
    · simp [hv] at he
    · simp only [he2] at he
      injection he with he
      simp [hl, he]
  · intro v hv
    obtain ⟨res, d, log, heq, hlog⟩ := searchAnswers_cases net query filters w
    rw [heq] at hv ⊢
    rcases hlog with ⟨v2, _, hl⟩ | ⟨e2, he2, _⟩
    · simp [hl]
    · simp [he2] at hv
  · intro e h
    rw [searchAnswers_rejected net query filters w e h]
  · intro r h hok
    rw [searchAnswers_not_ok net query filters w r h hok]
  · intro r e h hok hb
    rw [searchAnswers_undecodable net query filters w r e h hok hb]
  · intro r data success message h hok hb hs ht hm
    rw [searchAnswers_refused net query filters w r data success message h hok hb hs ht hm]

/-- The theorem `searchAnswers_logs_and_rethrows` on a network that is out
of reach: the `TypeError` of `fetch` is rethrown and logged once. -/
theorem searchAnswers_logs_and_rethrows_witness :
    (searchAnswers (unreachable (Thrown.error "TypeError" "Failed to fetch"))
        (.str "cats") (.obj []) World.init).1 =
        .error (Thrown.error "TypeError" "Failed to fetch")
      ∧ (searchAnswers (unreachable (Thrown.error "TypeError" "Failed to fetch"))
          (.str "cats") (.obj []) World.init).2.console =
          [("搜索答案失败:", Thrown.error "TypeError" "Failed to fetch")] :=
  ⟨(searchAnswers_logs_and_rethrows (unreachable (Thrown.error "TypeError" "Failed to fetch"))
      (.str "cats") (.obj []) World.init).2.2.1 _ rfl,
    (searchAnswers_logs_and_rethrows (unreachable (Thrown.error "TypeError" "Failed to fetch"))
      (.str "cats") (.obj []) World.init).1 _
      ((searchAnswers_logs_and_rethrows (unreachable (Thrown.error "TypeError" "Failed to fetch"))
        (.str "cats") (.obj []) World.init).2.2.1 _ rfl)⟩

/-! ## The connectivity probe -/

/-- C6: `testConnection` never throws: for every outcome of the transport
call it returns a boolean, and the boolean is true exactly when the call
resolved with a response whose `ok` is true, which is a status from 200 to
299; a rejected call and any other status give false. -/
theorem testConnection_returns_boolean (net : Network) (w : World) :
    ∃ b : Bool, (testConnection net w).1 = .ok b
      ∧ (b = true ↔ ∃ r, net (searchRequest (.str "test") (.obj [])) = .ok r ∧ r.ok = true)
      ∧ (b = true ↔ ∃ r, net (searchRequest (.str "test") (.obj [])) = .ok r
          ∧ 200 ≤ r.status ∧ r.status ≤ 299) := by
  cases h : net (searchRequest (.str "test") (.obj [])) with
  | error e =>
    refine ⟨false, ?_, ?_, ?_⟩
    · rw [testConnection_rejected net w e h]
    · simp
    · simp
  | ok r =>
    refine ⟨r.ok, ?_, ?_, ?_⟩
    · rw [testConnection_resolved net w r h]
    · simp
    · simp [Response.ok]

/-- C7 as stated fails: on a response with status 200 whose body is not JSON,
and on one whose body is a bare string, `testConnection` returns true. -/
theorem testConnection_true_on_malformed_body :
    (testConnection (respond (undecodableResponse 200 "OK")) World.init).1 = .ok true
      ∧ (testConnection (respond (okResponse (.str "pong"))) World.init).1 = .ok true := by
  refine ⟨?_, ?_⟩
  · rw [testConnection_resolved (respond (undecodableResponse 200 "OK")) World.init
      (undecodableResponse 200 "OK") rfl]
    rfl
  · rw [testConnection_resolved (respond (okResponse (.str "pong"))) World.init
      (okResponse (.str "pong")) rfl]
    rfl

/-- C7, amended: for every response the transport call resolves with,
whatever its body, `testConnection` does not decode the body and logs
nothing; it returns `response.ok`, false for a status outside 200 to 299 and
true for a status inside. -/
theorem testConnection_ignores_body (net : Network) (w : World) (r : Response)
    (h : net (searchRequest (.str "test") (.obj [])) = .ok r) :
    (testConnection net w).1 = .ok (decide (200 ≤ r.status ∧ r.status ≤ 299))
      ∧ (testConnection net w).2.decodes = w.decodes
      ∧ (testConnection net w).2.console = w.console := by
  rw [testConnection_resolved net w r h]
  exact ⟨rfl, rfl, rfl⟩

/-- The theorem `testConnection_ignores_body` at a 503 response whose body is
not JSON: the probe returns false and decodes nothing. -/
theorem testConnection_ignores_body_witness :
    (testConnection (respond (undecodableResponse 503 "Service Unavailable")) World.init).1
        = .ok false
      ∧ (testConnection (respond (undecodableResponse 503 "Service Unavailable"))
          World.init).2.decodes = 0
      ∧ (testConnection (respond (undecodableResponse 503 "Service Unavailable"))
          World.init).2.console = [] :=
  testConnection_ignores_body (respond (undecodableResponse 503 "Service Unavailable"))
    World.init (undecodableResponse 503 "Service Unavailable") rfl

end HttpService
